import Mathlib

/-!
Shallow embedding of the assignment/submission data layer of the
learning-management application: the `assignments` and `submissions`
tables with their check constraints and row-level security policies
(migrations `20250622173212_azure_wood.sql` and
`20250622173228_weathered_fire.sql`), the `student_assignment_progress`
view's `progress_status` CASE expression, and the write payloads built
by the client grading interface (`GradingInterface.tsx`).

Identifiers are `Nat` (uuids in the source), timestamps are `Int`
(timestamptz), scores are `Int` (integer columns).
-/

namespace LMS

abbrev UserId := Nat
abbrev CourseId := Nat
abbrev AssignmentId := Nat
abbrev SubmissionId := Nat

/-- `profiles.role` values used by the policies. -/
inductive Role where
  | student
  | teacher
  | admin
deriving DecidableEq, Repr

/-- `assignments.status` check constraint values: 'draft', 'published', 'archived'. -/
inductive AssignmentStatus where
  | draft
  | published
  | archived
deriving DecidableEq, Repr

/-- `submissions.status` check constraint values:
'pending', 'submitted', 'late', 'graded', 'returned'. -/
inductive SubmissionStatus where
  | pending
  | submitted
  | late
  | graded
  | returned
deriving DecidableEq, Repr

/-- `enrollments.status`; the policies only test for 'active'. -/
inductive EnrollmentStatus where
  | active
  | inactive
deriving DecidableEq, Repr

/-- A row of `profiles` (the columns the policies read). -/
structure Profile where
  id : UserId
  role : Role
deriving DecidableEq, Repr

/-- A row of `courses` (the columns the policies read). -/
structure Course where
  id : CourseId
  instructor_id : UserId
deriving DecidableEq, Repr

/-- A row of `enrollments` (the columns the policies read). -/
structure Enrollment where
  user_id : UserId
  course_id : CourseId
  status : EnrollmentStatus
deriving DecidableEq, Repr

/-- A row of `assignments` (the columns the claims and policies read). -/
structure Assignment where
  id : AssignmentId
  course_id : CourseId
  due_date : Int
  max_score : Int
  status : AssignmentStatus
deriving DecidableEq, Repr

/-- A row of `submissions`, per the CREATE TABLE in
`20250622173228_weathered_fire.sql`. -/
structure Submission where
  id : SubmissionId
  assignment_id : AssignmentId
  user_id : UserId
  submitted_at : Option Int
  file_url : Option String
  answer_text : Option String
  score : Option Int
  feedback : Option String
  status : SubmissionStatus
  graded_by : Option UserId
  graded_at : Option Int
deriving DecidableEq, Repr

/-- The database state: one list per table the policies join against. -/
structure Db where
  profiles : List Profile
  courses : List Course
  enrollments : List Enrollment
  assignments : List Assignment
  submissions : List Submission
deriving DecidableEq, Repr

/-- Error taxonomy of the spec's data boundary. -/
inductive DbError where
  | AuthorizationDenied
  | ValidationFailed
  | NotFound
deriving DecidableEq, Repr

/-- `submissions.status` column default: `DEFAULT 'pending'`. -/
def defaultSubmissionStatus : SubmissionStatus := .pending

/-- `submissions_score_check CHECK (score IS NULL OR (score >= 0 AND score <= 100))`.
The `status` check is enforced by the `SubmissionStatus` type itself. -/
def submissionRowValid (s : Submission) : Bool :=
  match s.score with
  | none => true
  | some n => 0 ≤ n && n ≤ 100

/-- `submissions_unique_user_assignment UNIQUE (assignment_id, user_id)`:
true when the insert of `s` would collide with an existing row. -/
def violatesUniquePair (db : Db) (s : Submission) : Bool :=
  db.submissions.any fun t =>
    t.assignment_id == s.assignment_id && t.user_id == s.user_id

/-- `EXISTS (SELECT 1 FROM profiles WHERE profiles.id = auth.uid() AND
profiles.role = 'admin')`, the admin escape hatch shared by several policies. -/
def isAdmin (db : Db) (uid : UserId) : Bool :=
  db.profiles.any fun p => p.id == uid && p.role == Role.admin

/-- `EXISTS (SELECT 1 FROM courses WHERE courses.id = <course> AND
courses.instructor_id = auth.uid())`. -/
def instructorOfCourse (db : Db) (uid : UserId) (cid : CourseId) : Bool :=
  db.courses.any fun c => c.id == cid && c.instructor_id == uid

/-- `EXISTS (SELECT 1 FROM enrollments WHERE enrollments.course_id = <course>
AND enrollments.user_id = auth.uid() AND enrollments.status = 'active')`. -/
def activelyEnrolled (db : Db) (uid : UserId) (cid : CourseId) : Bool :=
  db.enrollments.any fun e =>
    e.course_id == cid && e.user_id == uid && e.status == EnrollmentStatus.active

/-- The join `EXISTS (SELECT 1 FROM assignments a JOIN courses c ON
c.id = a.course_id WHERE a.id = submissions.assignment_id AND
c.instructor_id = auth.uid())` used by every teacher policy on `submissions`. -/
def instructorOfSubmission (db : Db) (uid : UserId) (s : Submission) : Bool :=
  db.assignments.any fun a =>
    a.id == s.assignment_id && instructorOfCourse db uid a.course_id

/-- Policy "Students can view published assignments for enrolled courses"
(SELECT USING clause on `assignments`). -/
def studentsViewPublishedAssignments (db : Db) (uid : UserId) (a : Assignment) : Bool :=
  a.status == AssignmentStatus.published && activelyEnrolled db uid a.course_id

/-- Policy "Teachers can view assignments for their courses"
(SELECT USING clause on `assignments`). -/
def teachersViewCourseAssignments (db : Db) (uid : UserId) (a : Assignment) : Bool :=
  instructorOfCourse db uid a.course_id || isAdmin db uid

/-- Row-level SELECT decision on `assignments`: the permissive policies
are combined with OR. -/
def assignmentSelectAllowed (db : Db) (uid : UserId) (a : Assignment) : Bool :=
  studentsViewPublishedAssignments db uid a || teachersViewCourseAssignments db uid a

/-- Policy "Students can view their own submissions" (SELECT USING clause). -/
def studentsViewOwnSubmissions (uid : UserId) (s : Submission) : Bool :=
  s.user_id == uid

/-- Policy "Teachers can view submissions for their course assignments"
(SELECT USING clause). -/
def teachersViewCourseSubmissions (db : Db) (uid : UserId) (s : Submission) : Bool :=
  instructorOfSubmission db uid s || isAdmin db uid

/-- Row-level SELECT decision on `submissions`. -/
def submissionSelectAllowed (db : Db) (uid : UserId) (s : Submission) : Bool :=
  studentsViewOwnSubmissions uid s || teachersViewCourseSubmissions db uid s

/-- Policy "Students can create their own submissions" (INSERT WITH CHECK
clause): the row must belong to the caller, who must hold an active
enrollment in the course of the row's assignment, and that assignment
must be 'published'. This is the ONLY insert policy on `submissions`. -/
def studentsCreateOwnSubmissions (db : Db) (uid : UserId) (s : Submission) : Bool :=
  s.user_id == uid &&
    db.assignments.any fun a =>
      a.id == s.assignment_id &&
        activelyEnrolled db uid a.course_id &&
        a.status == AssignmentStatus.published

/-- Row-level INSERT decision on `submissions`: only one policy exists. -/
def submissionInsertAllowed (db : Db) (uid : UserId) (s : Submission) : Bool :=
  studentsCreateOwnSubmissions db uid s

/-- Policy "Students can update their own submissions": the identical
USING and WITH CHECK clause, applied to the old row and to the new row
respectively. -/
def studentsUpdateOwnSubmissions (uid : UserId) (s : Submission) : Bool :=
  s.user_id == uid &&
    (s.status == SubmissionStatus.pending ||
     s.status == SubmissionStatus.submitted ||
     s.status == SubmissionStatus.late)

/-- Policy "Teachers can update submissions for their course assignments":
identical USING and WITH CHECK clause. -/
def teachersUpdateCourseSubmissions (db : Db) (uid : UserId) (s : Submission) : Bool :=
  instructorOfSubmission db uid s || isAdmin db uid

/-- Row-level UPDATE decision on `submissions`: the old row must pass some
policy's USING clause and the new row must pass some policy's WITH CHECK
clause (permissive policies OR together on each side). -/
def submissionUpdateAuthorized (db : Db) (uid : UserId)
    (old new : Submission) : Bool :=
  (studentsUpdateOwnSubmissions uid old || teachersUpdateCourseSubmissions db uid old) &&
    (studentsUpdateOwnSubmissions uid new || teachersUpdateCourseSubmissions db uid new)

/-- Policy "Teachers can delete submissions for their course assignments"
(DELETE USING clause); the only delete policy on `submissions`. -/
def submissionDeleteAllowed (db : Db) (uid : UserId) (s : Submission) : Bool :=
  instructorOfSubmission db uid s || isAdmin db uid

/-- INSERT into `submissions` at the data boundary: row security first
(AuthorizationDenied), then the check constraints and the unique
constraint (ValidationFailed). On success the row is appended; on any
error the database is unchanged. -/
def insertSubmission (db : Db) (uid : UserId) (s : Submission) :
    Except DbError Db :=
  if submissionInsertAllowed db uid s then
    if submissionRowValid s then
      if violatesUniquePair db s then
        .error .ValidationFailed
      else
        .ok { db with submissions := db.submissions ++ [s] }
    else
      .error .ValidationFailed
  else
    .error .AuthorizationDenied

/-- UPDATE of one `submissions` row at the data boundary: row security
first (AuthorizationDenied), then the check constraint on the updated
row (ValidationFailed); on success the updated row is returned. -/
def updateSubmissionRow (db : Db) (uid : UserId) (old new : Submission) :
    Except DbError Submission :=
  if submissionUpdateAuthorized db uid old new then
    if submissionRowValid new then
      .ok new
    else
      .error .ValidationFailed
  else
    .error .AuthorizationDenied

/-- Read of one `submissions` row: visible iff some SELECT policy admits it. -/
def readSubmissionRow (db : Db) (uid : UserId) (s : Submission) :
    Except DbError Submission :=
  if submissionSelectAllowed db uid s then .ok s else .error .AuthorizationDenied

/-- DELETE of one `submissions` row: allowed iff the DELETE policy admits it. -/
def deleteSubmissionRow (db : Db) (uid : UserId) (s : Submission) :
    Except DbError Unit :=
  if submissionDeleteAllowed db uid s then .ok () else .error .AuthorizationDenied

/-- The values `student_assignment_progress.progress_status` can take. -/
inductive ProgressStatus where
  | not_submitted
  | late
  | graded
  | submitted
deriving DecidableEq, Repr

/-- The `CASE` expression computing `progress_status` in the
`student_assignment_progress` view, evaluated for one (assignment,
LEFT-JOINed submission) pair:
`WHEN s.submitted_at IS NULL THEN 'not_submitted'
 WHEN s.submitted_at > a.due_date THEN 'late'
 WHEN s.score IS NOT NULL THEN 'graded'
 ELSE 'submitted'`.
When the LEFT JOIN finds no submission row, `s.submitted_at` is NULL. -/
def progress_status (a : Assignment) (s : Option Submission) : ProgressStatus :=
  match s with
  | none => .not_submitted
  | some sub =>
    match sub.submitted_at with
    | none => .not_submitted
    | some t =>
      if t > a.due_date then .late
      else if sub.score.isSome then .graded
      else .submitted

/-- The `status` values of `GradingFormData` in `GradingInterface.tsx`:
the union type `'graded' | 'returned'`. -/
inductive GradeStatus where
  | graded
  | returned
deriving DecidableEq, Repr

/-- `GradingFormData` of `GradingInterface.tsx`. -/
structure GradingFormData where
  score : Int
  feedback : String
  status : GradeStatus
deriving DecidableEq, Repr

/-- The submission status string the grading form writes. -/
def submissionStatusOfGrade : GradeStatus → SubmissionStatus
  | .graded => .graded
  | .returned => .returned

/-- The update payload `submissionData` built by `onSubmit` in
`GradingInterface.tsx` applied to the existing row: sets `score`,
`feedback`, `status`, `graded_by`, `graded_at` and nothing else. -/
def gradingUpdatePayload (d : GradingFormData) (uid : UserId) (now : Int)
    (old : Submission) : Submission :=
  { old with
    score := some d.score
    feedback := some d.feedback
    status := submissionStatusOfGrade d.status
    graded_by := some uid
    graded_at := some now }

/-- The insert payload `newSubmissionData` built by `onSubmit` in
`GradingInterface.tsx` when no submission row exists: `assignment_id`,
`user_id` and the grading fields; `submitted_at`, `file_url` and
`answer_text` are not supplied, so the database stores NULL for them
(`fresh` stands for the generated row id). -/
def gradingInsertPayload (d : GradingFormData) (uid : UserId) (now : Int)
    (aid : AssignmentId) (sid : UserId) (fresh : SubmissionId) : Submission :=
  { id := fresh
    assignment_id := aid
    user_id := sid
    submitted_at := none
    file_url := none
    answer_text := none
    score := some d.score
    feedback := some d.feedback
    status := submissionStatusOfGrade d.status
    graded_by := some uid
    graded_at := some now }

/-- The score invariant the spec states for stored rows. -/
def scoreOk (s : Submission) : Prop :=
  s.score = none ∨ ∃ n, s.score = some n ∧ 0 ≤ n ∧ n ≤ 100

/-- At most one submission row per (assignment_id, user_id) pair. -/
def pairsUnique (l : List Submission) : Prop :=
  l.Pairwise fun a b => ¬(a.assignment_id = b.assignment_id ∧ a.user_id = b.user_id)

/-! Concrete instances used by witnesses and counterexamples.
Users: 1 = teacher (instructor of course 10), 2 = student (actively
enrolled in course 10), 3 = admin, 4 = teacher (instructor of course 20
only). Assignment 100 is published in course 10 with due date
1736467200 (2025-01-10T00:00:00Z as a Unix timestamp). -/

def exCourse10 : Course := { id := 10, instructor_id := 1 }

def exCourse20 : Course := { id := 20, instructor_id := 4 }

def exAssignment100 : Assignment :=
  { id := 100, course_id := 10, due_date := 1736467200, max_score := 100,
    status := .published }

def exAssignmentDraft : Assignment :=
  { id := 101, course_id := 10, due_date := 1736467200, max_score := 100,
    status := .draft }

/-- The student's existing, ungraded, late submission:
submitted 2025-01-11T00:00:00Z, one day past the due date. -/
def exSubmittedRow : Submission :=
  { id := 1, assignment_id := 100, user_id := 2, submitted_at := some 1736553600,
    file_url := none, answer_text := none, score := none, feedback := none,
    status := .submitted, graded_by := none, graded_at := none }

/-- The same late submission after grading with score 85. -/
def exGradedLateRow : Submission :=
  { exSubmittedRow with
    score := some 85
    status := .graded
    graded_by := some 1
    graded_at := some 1736600000 }

def exDb : Db :=
  { profiles := [{ id := 1, role := .teacher }, { id := 2, role := .student },
                 { id := 3, role := .admin }, { id := 4, role := .teacher }]
    courses := [exCourse10, exCourse20]
    enrollments := [{ user_id := 2, course_id := 10, status := .active }]
    assignments := [exAssignment100, exAssignmentDraft]
    submissions := [exSubmittedRow] }

/-- The example database before the student has any submission row. -/
def exDbNoSub : Db := { exDb with submissions := [] }

/-- A grading form entry: score 85, empty feedback, keep private. -/
def exGradeForm : GradingFormData := { score := 85, feedback := "", status := .graded }

/-- An on-time submission against a due date of 0 (submitted at -1). -/
def exOnTimeRow : Submission :=
  { id := 7, assignment_id := 100, user_id := 2, submitted_at := some (-1),
    file_url := none, answer_text := none, score := some 85, feedback := none,
    status := .graded, graded_by := some 1, graded_at := some 5 }

def exAssignmentDue0 : Assignment :=
  { id := 100, course_id := 10, due_date := 0, max_score := 100, status := .published }

/-- The student's late submission graded with an out-of-range score. -/
def exOverScoreRow : Submission :=
  { exGradedLateRow with score := some 150 }

/-- Student 2's attempt to create a submission against draft assignment 101. -/
def exDraftAttempt : Submission :=
  { id := 8, assignment_id := 101, user_id := 2, submitted_at := some 1736000000,
    file_url := none, answer_text := none, score := none, feedback := none,
    status := .pending, graded_by := none, graded_at := none }

/-- Student 2's not-yet-submitted row for assignment 100. -/
def exPendingRow : Submission :=
  { id := 5, assignment_id := 100, user_id := 2, submitted_at := none,
    file_url := none, answer_text := none, score := none, feedback := none,
    status := .pending, graded_by := none, graded_at := none }

/-- Student 2's attempt to set their own pending row to status 'graded'. -/
def exStudentGradeAttempt : Submission :=
  { exPendingRow with status := .graded, score := some 100 }

/-- Student 2's ordinary edit: filling in the pending row and submitting it. -/
def exStudentEdit : Submission :=
  { exPendingRow with submitted_at := some 1736000000, status := .submitted }

/-- Student 2's second creation attempt for assignment 100, which already
holds a row for the pair (100, 2). -/
def exDupAttempt : Submission :=
  { id := 9, assignment_id := 100, user_id := 2, submitted_at := some 1736600000,
    file_url := none, answer_text := none, score := none, feedback := none,
    status := .submitted, graded_by := none, graded_at := none }

end LMS

namespace LMS

/-- C2 counterexample: the assignment is due 2025-01-10T00:00:00Z, the
student submitted 2025-01-11T00:00:00Z (strictly late), the instructor
has graded it with score 85 — yet the view's CASE reports 'late', not
'graded', because the late branch is tested before the score branch. -/
theorem progress_late_then_graded_cex :
    progress_status exAssignment100 (some exGradedLateRow) = ProgressStatus.late ∧
      ProgressStatus.late ≠ ProgressStatus.graded := by
  exact ⟨rfl, by decide⟩

/-- C2 (amended): for a submission whose submitted_at is strictly after
the assignment's due_date, the student_assignment_progress view reports
progress_status 'late' even after an instructor grades it with a
non-null score; 'graded' is reported only when submitted_at is not
after due_date and score is non-null. -/
theorem progress_status_of_graded_submission (a : Assignment) (s : Submission)
    (t sc : Int) (hsub : s.submitted_at = some t) (hsc : s.score = some sc) :
    (a.due_date < t → progress_status a (some s) = ProgressStatus.late) ∧
      (¬ a.due_date < t → progress_status a (some s) = ProgressStatus.graded) := by
  constructor <;> intro h <;> simp [progress_status, hsub, hsc, h]

/-- Witness for C2's amended theorem at the scenario's concrete dates. -/
theorem progress_status_of_graded_submission_witness :
    progress_status exAssignment100 (some exGradedLateRow) = ProgressStatus.late ∧
      progress_status exAssignmentDue0 (some exOnTimeRow) = ProgressStatus.graded :=
  ⟨(progress_status_of_graded_submission exAssignment100 exGradedLateRow
      1736553600 85 rfl rfl).1 (by decide),
   (progress_status_of_graded_submission exAssignmentDue0 exOnTimeRow
      (-1) 85 rfl rfl).2 (by decide)⟩

/-- C7: a read of an assignment row is allowed if and only if the
assignment is 'published' and the caller holds an active enrollment in
its course, or the caller is the course's instructor, or the caller is
an admin; in particular 'draft' and 'archived' assignments are invisible
to enrolled students who are neither instructor nor admin. -/
theorem assignment_read_iff (db : Db) (uid : UserId) (a : Assignment) :
    assignmentSelectAllowed db uid a = true ↔
      ((a.status = AssignmentStatus.published ∧
        ∃ e ∈ db.enrollments, e.course_id = a.course_id ∧ e.user_id = uid ∧
          e.status = EnrollmentStatus.active) ∨
       (∃ c ∈ db.courses, c.id = a.course_id ∧ c.instructor_id = uid) ∨
       (∃ p ∈ db.profiles, p.id = uid ∧ p.role = Role.admin)) := by
  simp [assignmentSelectAllowed, studentsViewPublishedAssignments,
    teachersViewCourseAssignments, activelyEnrolled, instructorOfCourse, isAdmin,
    Bool.or_eq_true, Bool.and_eq_true, List.any_eq_true, beq_iff_eq, and_assoc]

/-- C9: the row the grading interface inserts for a student with no
existing submission has submitted_at null, status 'graded' or
'returned', and a non-null score — and for any assignment the
student_assignment_progress view reports 'not_submitted' for it,
because the CASE tests submitted_at IS NULL first. -/
theorem grading_insert_reports_not_submitted
    (d : GradingFormData) (uid : UserId) (now : Int) (aid : AssignmentId)
    (sid : UserId) (fresh : SubmissionId) (a : Assignment) :
    (gradingInsertPayload d uid now aid sid fresh).submitted_at = none ∧
      ((gradingInsertPayload d uid now aid sid fresh).status = SubmissionStatus.graded ∨
       (gradingInsertPayload d uid now aid sid fresh).status = SubmissionStatus.returned) ∧
      (gradingInsertPayload d uid now aid sid fresh).score = some d.score ∧
      progress_status a (some (gradingInsertPayload d uid now aid sid fresh)) =
        ProgressStatus.not_submitted := by
  refine ⟨rfl, ?_, rfl, rfl⟩
  cases h : d.status <;>
    simp [gradingInsertPayload, submissionStatusOfGrade, h]

/-- C10: every status value the grading interface writes — in its update
payload and in its insert payload — is 'graded' or 'returned', and a
submissions row inserted without an explicit status receives the
database default 'pending'; in particular no write path of the
application persists 'late' or 'submitted'. -/
theorem grading_writes_only_graded_or_returned
    (d : GradingFormData) (uid : UserId) (now : Int) (old : Submission)
    (aid : AssignmentId) (sid : UserId) (fresh : SubmissionId) :
    ((gradingUpdatePayload d uid now old).status = SubmissionStatus.graded ∨
     (gradingUpdatePayload d uid now old).status = SubmissionStatus.returned) ∧
      ((gradingInsertPayload d uid now aid sid fresh).status = SubmissionStatus.graded ∨
       (gradingInsertPayload d uid now aid sid fresh).status = SubmissionStatus.returned) ∧
      defaultSubmissionStatus = SubmissionStatus.pending := by
  refine ⟨?_, ?_, rfl⟩ <;> cases h : d.status <;>
    simp [gradingUpdatePayload, gradingInsertPayload, submissionStatusOfGrade, h]

/-- A row passing the submissions_score_check constraint has score null
or in [0,100]. -/
theorem scoreOk_of_valid {s : Submission} (h : submissionRowValid s = true) :
    scoreOk s := by
  unfold submissionRowValid at h
  cases hs : s.score with
  | none => exact Or.inl hs
  | some n =>
    rw [hs] at h
    rw [Bool.and_eq_true, decide_eq_true_eq, decide_eq_true_eq] at h
    exact Or.inr ⟨n, hs, h.1, h.2⟩

/-- C1 (code bug exhibited): in the example database, caller 1 is the
instructor of the course of published assignment 100, student 2 is
actively enrolled there and has no submission row, and caller 3 is an
admin — yet the grading interface's insert of a graded row for
student 2 is rejected by row security for both callers, because the
only INSERT policy on submissions requires user_id = auth.uid(). -/
theorem teacher_direct_grade_insert_denied :
    instructorOfCourse exDbNoSub 1 exAssignment100.course_id = true ∧
      exAssignment100.status = AssignmentStatus.published ∧
      activelyEnrolled exDbNoSub 2 exAssignment100.course_id = true ∧
      exDbNoSub.submissions = [] ∧
      isAdmin exDbNoSub 3 = true ∧
      insertSubmission exDbNoSub 1
          (gradingInsertPayload exGradeForm 1 1736600000 100 2 9) =
        .error .AuthorizationDenied ∧
      insertSubmission exDbNoSub 3
          (gradingInsertPayload exGradeForm 3 1736600000 100 2 9) =
        .error .AuthorizationDenied :=
  ⟨rfl, rfl, rfl, rfl, rfl, rfl, rfl⟩

/-- C3: the submissions_score_check constraint is enforced at the data
boundary independently of any assignment's max_score: every row an
update returns has score null or in [0,100], and an authorized update
or insert that tries to store score = 150 fails with ValidationFailed
(returning an error, so the stored row is unchanged). -/
theorem submissions_score_check_enforced (db : Db) (uid : UserId)
    (old new s : Submission) :
    (∀ r, updateSubmissionRow db uid old new = .ok r → scoreOk r) ∧
      (new.score = some 150 → submissionUpdateAuthorized db uid old new = true →
        updateSubmissionRow db uid old new = .error .ValidationFailed) ∧
      (s.score = some 150 → submissionInsertAllowed db uid s = true →
        insertSubmission db uid s = .error .ValidationFailed) := by
  refine ⟨?_, ?_, ?_⟩
  · intro r hr
    unfold updateSubmissionRow at hr
    split at hr
    · split at hr
      case isTrue hvalid => exact Except.ok.inj hr ▸ scoreOk_of_valid hvalid
      case isFalse hvalid => exact Except.noConfusion hr
    · exact Except.noConfusion hr
  · intro h150 hauth
    simp [updateSubmissionRow, hauth, submissionRowValid, h150]
  · intro h150 hauth
    simp [insertSubmission, hauth, submissionRowValid, h150]

/-- Witness for C3: the instructor's attempt to store score 150 on the
student's submission fails with ValidationFailed. -/
theorem submissions_score_check_enforced_witness :
    updateSubmissionRow exDb 1 exSubmittedRow exOverScoreRow =
      .error .ValidationFailed :=
  (submissions_score_check_enforced exDb 1 exSubmittedRow exOverScoreRow
    exOverScoreRow).2.1 rfl (by decide)

/-- C5: a submission insert is rejected with AuthorizationDenied (and no
row is created) whenever, for the assignment the row targets, the
assignment is not 'published' or the caller holds no active enrollment
in its course. -/
theorem submission_create_denied_unenrolled_or_unpublished
    (db : Db) (uid : UserId) (s : Submission)
    (h : ∀ a ∈ db.assignments, a.id = s.assignment_id →
      a.status ≠ AssignmentStatus.published ∨
        ∀ e ∈ db.enrollments, e.course_id = a.course_id → e.user_id = uid →
          e.status ≠ EnrollmentStatus.active) :
    insertSubmission db uid s = .error .AuthorizationDenied := by
  have hfalse : ¬ submissionInsertAllowed db uid s = true := by
    intro hc
    simp only [submissionInsertAllowed, studentsCreateOwnSubmissions,
      activelyEnrolled, Bool.and_eq_true, List.any_eq_true, beq_iff_eq] at hc
    obtain ⟨-, a, ha, ⟨haid, e, he, ⟨hec, heu⟩, hes⟩, hpub⟩ := hc
    rcases h a ha haid with hnp | hne
    · exact hnp hpub
    · exact hne e he hec heu hes
  unfold insertSubmission
  rw [if_neg hfalse]

/-- Witness for C5: enrolled student 2's creation attempt against draft
assignment 101 is rejected with AuthorizationDenied. -/
theorem submission_create_denied_witness :
    insertSubmission exDb 2 exDraftAttempt = .error .AuthorizationDenied :=
  submission_create_denied_unenrolled_or_unpublished exDb 2 exDraftAttempt
    (by decide)

/-- `instructorOfSubmission` reads only the row's assignment_id. -/
theorem instructorOfSubmission_congr (db : Db) (uid : UserId)
    {s t : Submission} (h : s.assignment_id = t.assignment_id) :
    instructorOfSubmission db uid s = instructorOfSubmission db uid t := by
  unfold instructorOfSubmission
  rw [h]

/-- C4 counterexample: student 2 owns a row whose status is 'pending'
(inside the claimed edit window), yet their update setting the row's
status to 'graded' is rejected with AuthorizationDenied: the student
UPDATE policy's WITH CHECK clause also constrains the new row's status,
and caller 2 is neither the course instructor nor an admin. -/
theorem student_update_while_pending_denied_cex :
    exPendingRow.user_id = 2 ∧
      exPendingRow.status = SubmissionStatus.pending ∧
      updateSubmissionRow exDb 2 exPendingRow exStudentGradeAttempt =
        .error .AuthorizationDenied :=
  ⟨rfl, rfl, rfl⟩

/-- C4 (amended): an update by the owning student is permitted while the
row's status is in {pending, submitted, late}, provided the updated row
still belongs to the student and keeps a status in {pending, submitted,
late}; once the row's status is 'graded' or 'returned', every update by
the student (who is not the course instructor and not an admin) fails
with AuthorizationDenied. -/
theorem student_edit_window (db : Db) (uid : UserId) (old new : Submission)
    (howner : old.user_id = uid) :
    ((old.status = SubmissionStatus.pending ∨ old.status = SubmissionStatus.submitted ∨
        old.status = SubmissionStatus.late) →
      new.user_id = uid →
      (new.status = SubmissionStatus.pending ∨ new.status = SubmissionStatus.submitted ∨
        new.status = SubmissionStatus.late) →
      submissionUpdateAuthorized db uid old new = true) ∧
      ((old.status = SubmissionStatus.graded ∨ old.status = SubmissionStatus.returned) →
        instructorOfSubmission db uid old = false → isAdmin db uid = false →
        updateSubmissionRow db uid old new = .error .AuthorizationDenied) := by
  constructor
  · intro hold hnewu hnew
    have h1 : studentsUpdateOwnSubmissions uid old = true := by
      simp only [studentsUpdateOwnSubmissions, howner]
      rcases hold with h | h | h <;> simp [h]
    have h2 : studentsUpdateOwnSubmissions uid new = true := by
      simp only [studentsUpdateOwnSubmissions, hnewu]
      rcases hnew with h | h | h <;> simp [h]
    simp [submissionUpdateAuthorized, h1, h2]
  · intro hold hinst hadmin
    have hna : ¬ submissionUpdateAuthorized db uid old new = true := by
      rcases hold with h | h <;>
        simp [submissionUpdateAuthorized, studentsUpdateOwnSubmissions,
          teachersUpdateCourseSubmissions, h, hinst, hadmin]
    unfold updateSubmissionRow
    rw [if_neg hna]

/-- Witness for C4's amended theorem: student 2 may submit their pending
row, and the same student's update of their graded row is denied. -/
theorem student_edit_window_witness :
    submissionUpdateAuthorized exDb 2 exPendingRow exStudentEdit = true ∧
      updateSubmissionRow exDb 2 exGradedLateRow exStudentEdit =
        .error .AuthorizationDenied :=
  ⟨(student_edit_window exDb 2 exPendingRow exStudentEdit rfl).1
      (Or.inl rfl) rfl (Or.inr (Or.inl rfl)),
   (student_edit_window exDb 2 exGradedLateRow exStudentEdit rfl).2
      (Or.inl rfl) (by decide) (by decide)⟩

/-- C6: successful inserts preserve the at-most-one-row-per
(assignment_id, user_id) invariant, and an otherwise-authorized second
creation attempt for a pair that already has a row fails with
ValidationFailed, leaving the database unchanged. -/
theorem submissions_unique_pair (db : Db) (uid : UserId) (s : Submission) :
    (∀ db', insertSubmission db uid s = .ok db' →
      pairsUnique db.submissions → pairsUnique db'.submissions) ∧
      (submissionInsertAllowed db uid s = true →
        (∃ t ∈ db.submissions, t.assignment_id = s.assignment_id ∧
          t.user_id = s.user_id) →
        insertSubmission db uid s = .error .ValidationFailed) := by
  constructor
  · intro db' hok hu
    unfold insertSubmission at hok
    split at hok
    · split at hok
      · split at hok
        · exact Except.noConfusion hok
        case isFalse hdup =>
          have hinj := Except.ok.inj hok
          subst hinj
          show pairsUnique (db.submissions ++ [s])
          unfold pairsUnique at hu ⊢
          rw [List.pairwise_append]
          refine ⟨hu, by simp, ?_⟩
          intro t ht b hb
          simp only [List.mem_singleton] at hb
          subst hb
          intro hpair
          apply hdup
          simp only [violatesUniquePair, List.any_eq_true]
          exact ⟨t, ht, by rw [Bool.and_eq_true, beq_iff_eq, beq_iff_eq]; exact hpair⟩
      · exact Except.noConfusion hok
    · exact Except.noConfusion hok
  · intro hauth hdup
    have hv : violatesUniquePair db s = true := by
      obtain ⟨t, ht, h1, h2⟩ := hdup
      simp only [violatesUniquePair, List.any_eq_true]
      exact ⟨t, ht, by rw [Bool.and_eq_true, beq_iff_eq, beq_iff_eq]; exact ⟨h1, h2⟩⟩
    simp [insertSubmission, hauth, hv]

/-- Witness for C6: the pair (assignment 100, student 2) already holds a
row in the example database, so student 2's second creation attempt
fails with ValidationFailed. -/
theorem submissions_unique_pair_witness :
    insertSubmission exDb 2 exDupAttempt = .error .ValidationFailed :=
  (submissions_unique_pair exDb 2 exDupAttempt).2 (by decide)
    ⟨exSubmittedRow, by decide, rfl, rfl⟩

/-- C8: the instructor of the course of a submission's assignment (and
any admin) may read, update (to any valid row under the same
assignment), and delete it; a caller who is not an instructor of that
course, not the row owner and not an admin is denied all three with
AuthorizationDenied. -/
theorem instructor_submission_access (db : Db) (uid : UserId)
    (s new : Submission) :
    ((instructorOfSubmission db uid s = true ∨ isAdmin db uid = true) →
      readSubmissionRow db uid s = .ok s ∧
        deleteSubmissionRow db uid s = .ok () ∧
        (new.assignment_id = s.assignment_id → submissionRowValid new = true →
          updateSubmissionRow db uid s new = .ok new)) ∧
      (instructorOfSubmission db uid s = false → isAdmin db uid = false →
        uid ≠ s.user_id →
        readSubmissionRow db uid s = .error .AuthorizationDenied ∧
          deleteSubmissionRow db uid s = .error .AuthorizationDenied ∧
          updateSubmissionRow db uid s new = .error .AuthorizationDenied) := by
  constructor
  · intro hins
    have hteach : teachersViewCourseSubmissions db uid s = true := by
      rcases hins with h | h <;> simp [teachersViewCourseSubmissions, h]
    refine ⟨?_, ?_, ?_⟩
    · simp [readSubmissionRow, submissionSelectAllowed, hteach]
    · rcases hins with h | h <;> simp [deleteSubmissionRow, submissionDeleteAllowed, h]
    · intro haid hvalid
      have hnew : instructorOfSubmission db uid new = instructorOfSubmission db uid s :=
        instructorOfSubmission_congr db uid haid
      have hauth : submissionUpdateAuthorized db uid s new = true := by
        rcases hins with h | h <;>
          simp [submissionUpdateAuthorized, teachersUpdateCourseSubmissions, hnew, h]
      simp [updateSubmissionRow, hauth, hvalid]
  · intro hinst hadmin howner
    have hown : (s.user_id == uid) = false := by
      rw [beq_eq_false_iff_ne]
      exact fun hh => howner hh.symm
    refine ⟨?_, ?_, ?_⟩
    · simp [readSubmissionRow, submissionSelectAllowed, studentsViewOwnSubmissions,
        teachersViewCourseSubmissions, hown, hinst, hadmin]
    · simp [deleteSubmissionRow, submissionDeleteAllowed, hinst, hadmin]
    · simp [updateSubmissionRow, submissionUpdateAuthorized,
        studentsUpdateOwnSubmissions, teachersUpdateCourseSubmissions,
        hown, hinst, hadmin]

/-- Witness for C8: instructor 1 reads and grades the student's
submission in course 10; teacher 4, instructor of course 20 only, is
denied deleting it. -/
theorem instructor_submission_access_witness :
    readSubmissionRow exDb 1 exSubmittedRow = .ok exSubmittedRow ∧
      updateSubmissionRow exDb 1 exSubmittedRow exGradedLateRow =
        .ok exGradedLateRow ∧
      deleteSubmissionRow exDb 4 exSubmittedRow = .error .AuthorizationDenied :=
  ⟨((instructor_submission_access exDb 1 exSubmittedRow exGradedLateRow).1
      (Or.inl (by decide))).1,
   ((instructor_submission_access exDb 1 exSubmittedRow exGradedLateRow).1
      (Or.inl (by decide))).2.2 rfl (by decide),
   ((instructor_submission_access exDb 4 exSubmittedRow exGradedLateRow).2
      (by decide) (by decide) (by decide)).2.1⟩

end LMS
